import Mathlib

/-!
Verification development for the `ximea-visualizer` repository.

The camera backends (`mock_interface.py`, `tis_interface.py`) and the GUI
tick handler (`gui.py`) are shallowly embedded as pure Lean functions over
explicit state records.  Integer-valued Python arithmetic is modelled on
`Int` (Python `//` is floor division, hence `Int.fdiv`); frames are modelled
by the data the claims inspect (a shape for the mock frames, a list of
sample values for the saturation count of the hardware backend).
-/

namespace CameraVisualizer

/-! ### Embedding of `mock_interface.py` (class `MockCamera`) -/

/-- The save root of the mock backend (`load_data_path() / "mock"`). -/
def mockDataFolder : List String := ["data", "mock"]

/-- Mutable state of `MockCamera`, with the `__init__` values as defaults. -/
structure MockState where
  exposure : Int := 10000
  exposureMax : Int := 500000
  exposureMin : Int := 100
  bitDepth : Nat := 8
  counter : Nat := 0
  toggleViewFlag : Nat := 0
  subfolder : Option String := none
  saveFolder : List String := mockDataFolder
  deriving DecidableEq

/-- `MockCamera.__init__`. -/
def MockState.init : MockState := {}

/-- `MockCamera.exposure_range`. -/
def mockExposureRange : Int × Int × Int := (100, 500000, 20)

/-- `MockCamera.set_exposure`. -/
def mockSetExposure (s : MockState) (e : Int) : Bool × MockState :=
  if s.exposureMax ≤ e ∨ e ≤ s.exposureMin then (false, s)
  else (true, { s with exposure := e })

/-- `MockCamera.init_exposure`. -/
def mockInitExposure (s : MockState) (maxExposure : Int) : MockState :=
  { s with exposureMax := min maxExposure 500000, exposureMin := 100 }

/-- `MockCamera.adjust_exposure`. -/
def mockAdjustExposure (s : MockState) : MockState :=
  { s with exposure := Int.fdiv (s.exposureMin + s.exposureMax) 2 }

/-- `MockCamera.check_exposure` (the frame argument is unused by the code). -/
def mockCheckExposure (s : MockState) : Bool × MockState :=
  let s1 :=
    if 10000 < s.exposure then { s with exposureMax := s.exposure - 1 }
    else { s with exposureMin := s.exposure + 1 }
  if 8000 ≤ s1.exposure ∧ s1.exposure ≤ 12000 then
    (true, { s1 with exposureMax := 500000, exposureMin := 100 })
  else
    (false, s1)

/-- `MockCamera.shape` (`self._shape = [480, 640]`). -/
def mockShape : Nat × Nat := (480, 640)

/-- `MockCamera.get_frame`: returns a frame of the camera's shape and
advances the internal counter; it never raises. -/
def mockGetFrame (s : MockState) : (Nat × Nat) × MockState :=
  (mockShape, { s with counter := s.counter + 1 })

/-- `MockCamera.toggle_bit_depth`. -/
def mockToggleBitDepth (s : MockState) : MockState :=
  { s with bitDepth := if s.bitDepth = 16 then 8 else 16 }

/-- `MockCamera.toggle_view`. -/
def mockToggleView (s : MockState) : MockState :=
  { s with toggleViewFlag := if s.toggleViewFlag = 1 then 0 else 1 }

/-- `MockCamera.set_save_subfolder`. -/
def mockSetSaveSubfolder (s : MockState) (sub : String) : MockState :=
  { s with subfolder := some sub }

/-- `MockCamera.save_folder`. -/
def mockSaveFolder (s : MockState) : List String :=
  match s.subfolder with
  | none => s.saveFolder
  | some sub => s.saveFolder ++ [sub]

/-! ### Embedding of `tis_interface.py` (class `TisCamera`) -/

/-- `TIS_MIN_EXPOSURE_MS`. -/
def tisMinExposureMs : Int := 15

/-- `TIS_MAX_EXPOSURE_MS`. -/
def tisMaxExposureMs : Int := 33333

/-- `TIS_EXPOSURE_INCREMENT`. -/
def tisExposureIncrement : Int := 10

/-- The accepted pixel formats of the TIS backend. -/
inductive PixelFormat where
  | mono8
  | bayerGB8
  | bayerGB16
  deriving DecidableEq

/-- `PIXEL_FORMAT_TO_BIT_DEPTH_MAP`. -/
def PixelFormat.toBitDepth : PixelFormat → Nat
  | .mono8 => 8
  | .bayerGB8 => 8
  | .bayerGB16 => 16

/-- The save root of the TIS backend (`load_data_path() / "tis"`). -/
def tisDataFolder : List String := ["data", "tis"]

/-- `TisCameraState`, with the dataclass defaults
(`current_exposure = TIS_DEFAULT_EXPOSURE_TIME_MS = 500`,
`pixel_format = BayerGB16`). -/
structure TisState where
  saveFolder : List String := tisDataFolder
  currentExposure : Int := 500
  pixelFormat : PixelFormat := .bayerGB16
  demosaic : Bool := false
  saveSubfolder : Option String := none
  minExposure : Int := tisMinExposureMs
  maxExposure : Int := tisMaxExposureMs
  deriving DecidableEq

/-- `TisCamera.__init__` state. -/
def TisState.init : TisState := {}

/-- `TisCameraState.bit_depth`. -/
def TisState.bitDepth (s : TisState) : Nat := s.pixelFormat.toBitDepth

/-- `TisCameraState.dynamic_range` (`2 ** bit_depth - 1`). -/
def TisState.dynamicRange (s : TisState) : Nat := 2 ^ s.bitDepth - 1

/-- `TisCameraState.save_path`: `None` without a subfolder. -/
def TisState.savePath (s : TisState) : Option (List String) :=
  match s.saveSubfolder with
  | none => none
  | some sub => some (s.saveFolder ++ [sub])

/-- `TisCamera.save_folder` (returns `self.state.save_path`). -/
def tisSaveFolder (s : TisState) : Option (List String) := s.savePath

/-- `TisCamera.set_save_subfolder`. -/
def tisSetSaveSubfolder (s : TisState) (sub : String) : TisState :=
  { s with saveSubfolder := some sub }

/-- `TisCamera.exposure` (`current_exposure * 1000`, microseconds). -/
def tisExposure (s : TisState) : Int := s.currentExposure * 1000

/-- `TisCamera.exposure_range` (in microseconds). -/
def tisExposureRange : Int × Int × Int :=
  (tisMinExposureMs * 1000, tisMaxExposureMs * 1000, tisExposureIncrement * 1000)

/-- `TisCamera.set_exposure`: stores the value and always returns `True`. -/
def tisSetExposure (s : TisState) (e : Int) : Bool × TisState :=
  (true, { s with currentExposure := e })

/-- `TisCamera._find_exposure_for_saturation`: one binary-search step on the
exposure interval, driven by the count of saturated samples of the frame. -/
def tisFindExposureForSaturation (s : TisState) (frame : List Nat) :
    Bool × TisState :=
  let maxSaturation : Int := if s.bitDepth = 16 then 100 else 8000
  let tol : Int := if s.bitDepth = 16 then 20 else 1000
  let saturated : Int :=
    ((frame.filter (fun x => decide (s.dynamicRange ≤ x))).length : Int)
  let s1 :=
    if maxSaturation < saturated then
      { s with maxExposure := s.currentExposure - 1 }
    else
      { s with minExposure := s.currentExposure + 1 }
  let tmp := s1.maxExposure - s1.minExposure
  let midExposure := Int.fdiv (s1.maxExposure + s1.minExposure) 2
  let converged :=
    decide (|saturated - maxSaturation| < tol) ||
    decide (|tmp| < 10) ||
    decide (|s1.currentExposure - midExposure| ≤ 2 * tisExposureIncrement)
  (converged, s1)

/-- `TisCamera.init_exposure`. -/
def tisInitExposure (s : TisState) (maxExposure : Int) : TisState :=
  { s with
    maxExposure := min tisMaxExposureMs (Int.fdiv maxExposure 1000),
    minExposure := tisMinExposureMs }

/-- `TisCamera.adjust_exposure`. -/
def tisAdjustExposure (s : TisState) : TisState :=
  (tisSetExposure s (Int.fdiv (s.maxExposure + s.minExposure) 2)).2

/-- `TisCamera.check_exposure` (delegates to
`_find_exposure_for_saturation`). -/
def tisCheckExposure (s : TisState) (frame : List Nat) : Bool × TisState :=
  tisFindExposureForSaturation s frame

/-- `TisCamera.toggle_bit_depth` (`pass`). -/
def tisToggleBitDepth (s : TisState) : TisState := s

/-- `TisCamera.toggle_view`. -/
def tisToggleView (s : TisState) : TisState := { s with demosaic := !s.demosaic }

/-! ### Embedding of the device registry (`mock_interface.camera`) -/

/-- The backend identifiers of `CameraEnum`. -/
inductive CameraKind where
  | mock
  | ximea
  | tis
  deriving DecidableEq

/-- The Python modules imported lazily inside each branch of `camera`
(the mock branch imports no hardware SDK module). -/
def cameraBackendModule : CameraKind → List String
  | .mock => []
  | .ximea => ["camera_visualizer.camera_interface.ximea_interface"]
  | .tis => ["camera_visualizer.camera_interface.tis_interface"]

/-- The registry function `camera(camera_id)`: resolves an identifier string
to a constructed backend kind together with the modules imported in that
branch, or fails with the `ValueError` message for unknown identifiers. -/
def camera (cameraId : String) : Except String (CameraKind × List String) :=
  if cameraId = "mock" then .ok (.mock, cameraBackendModule .mock)
  else if cameraId = "ximea" then .ok (.ximea, cameraBackendModule .ximea)
  else if cameraId = "tis" then .ok (.tis, cameraBackendModule .tis)
  else .error ("Camera f" ++ cameraId ++ " not known.")

/-! ### Embedding of the GUI session (`gui.py`, class `VideoPlayer`)

The session is specialised to the mock backend (the one whose `get_frame`
the repository can run); a `deviceFails` flag on each tick models the
device's declared exception type being raised by `get_frame`, which the
handler catches (`except self.camera.exception_type()`). -/

/-- The session flags and counters of `GuiState` that the tick handler
touches. -/
structure GuiState where
  frameCounter : Nat := 0
  recording : Bool := false
  running : Bool := false
  paused : Bool := false
  estimatingExposure : Bool := false
  exposureTries : Nat := 0
  deriving DecidableEq

/-- One call made to the external save capability: the filename stem handed
to `Camera.save_frame` and the shape of the raw frame saved. -/
structure SaveCall where
  filenameStem : String
  frameShape : Nat × Nat
  deriving DecidableEq

/-- The whole observable system: session state, mock camera state, the log
of save calls issued, and the currently displayed frame. -/
structure Sys where
  gui : GuiState
  cam : MockState
  saves : List SaveCall
  display : Option (Nat × Nat)
  deriving DecidableEq

/-- A fresh session over a fresh mock camera. -/
def Sys.init : Sys := ⟨{}, {}, [], none⟩

/-- Zero padding to four digits, as the format `f"frame_{n:04d}"` does. -/
def pad4 (n : Nat) : String :=
  let s := toString n
  String.mk (List.replicate (4 - s.length) '0') ++ s

/-- The exposure-estimation bookkeeping at the end of `update_frame`
(gui.py lines 290-300), on the pair `(estimating_exposure, exposure_tries)`,
given the result of `check_exposure`; outside an estimation run the block
does not execute. -/
def estStep (est : Bool × Nat) (converged : Bool) : Bool × Nat :=
  if est.1 = false then est
  else
    let t1 := est.2 + 1
    let e2 := if 50 ≤ t1 then false else !converged
    let t2 := if e2 = false then 0 else t1
    (e2, t2)

/-- `VideoPlayer.update_frame`, one timer tick.  `deviceFails = true` means
`get_frame` raised the camera's declared exception type, which the `try`
block converts into `frame_save = frame_view = None`. -/
def updateFrame (sys : Sys) (deviceFails : Bool) : Sys :=
  if sys.gui.running = false ∨ sys.gui.paused = true then sys
  else
    let cam1 :=
      if sys.gui.estimatingExposure then mockAdjustExposure sys.cam
      else sys.cam
    let pulled : Option (Nat × Nat) × MockState :=
      if deviceFails then (none, cam1)
      else ((mockGetFrame cam1).1, (mockGetFrame cam1).2)
    let frameOpt := pulled.1
    let cam2 := pulled.2
    let display1 :=
      match frameOpt with
      | some f => some f
      | none => sys.display
    let savesCounter : List SaveCall × Nat :=
      match frameOpt, sys.gui.recording with
      | some f, true =>
          (sys.saves ++ [⟨"frame_" ++ pad4 sys.gui.frameCounter, f⟩],
            sys.gui.frameCounter + 1)
      | _, _ => (sys.saves, sys.gui.frameCounter)
    let estOut :=
      if sys.gui.estimatingExposure then
        let checked := mockCheckExposure cam2
        (checked.2, estStep (true, sys.gui.exposureTries) checked.1)
      else
        (cam2, (sys.gui.estimatingExposure, sys.gui.exposureTries))
    { gui :=
        { sys.gui with
          frameCounter := savesCounter.2,
          estimatingExposure := estOut.2.1,
          exposureTries := estOut.2.2 },
      cam := estOut.1,
      saves := savesCounter.1,
      display := display1 }

/-- `VideoPlayer.toggle_recording`; `timestamp` stands for the
`datetime.now()` string used as save subfolder. -/
def toggleRecording (sys : Sys) (timestamp : String) : Sys :=
  if sys.gui.running = false ∨ sys.gui.paused = true then sys
  else if sys.gui.recording = false then
    { sys with
      gui := { sys.gui with recording := true, frameCounter := 0 },
      cam := mockSetSaveSubfolder sys.cam timestamp }
  else
    { sys with gui := { sys.gui with recording := false } }

/-- `VideoPlayer.toggle_exposure`; `fps` is the session's target frame rate
(gui passes `int(1_000_000 // fps)` to `init_exposure`). -/
def toggleExposure (sys : Sys) (fps : Int) : Sys :=
  if sys.gui.running = false ∨ sys.gui.paused = true ∨
      sys.gui.estimatingExposure = true then sys
  else
    { sys with
      gui := { sys.gui with estimatingExposure := true, exposureTries := 0 },
      cam := mockInitExposure sys.cam (Int.fdiv 1000000 fps) }

/-- Iterate `updateFrame` with a working device. -/
def runTicks : Nat → Sys → Sys
  | 0, sys => sys
  | n + 1, sys => runTicks n (updateFrame sys false)

/-! ### Claim C4: the TIS convergence test, stated from the claim's words -/

/-- Stated from claim C4's words: count the samples at or above the
dynamic-range ceiling `2 ^ bitDepth - 1`; if the count exceeds the
allowed-saturation threshold (100 at 16-bit, 8000 at 8-bit) shrink
`max_exposure` to `current - 1`, otherwise grow `min_exposure` to
`current + 1`; report convergence exactly when the saturated count is
within the tolerance (20 at 16-bit, 1000 at 8-bit) of the threshold, or
the interval width `|max - min|` is below 10, or `|current - midpoint|`
of the new interval is within two exposure increments. -/
def tisCheckExposureClaim (s : TisState) (frame : List Nat) :
    Bool × TisState :=
  let ceiling := 2 ^ s.bitDepth - 1
  let threshold : Int := if s.bitDepth = 16 then 100 else 8000
  let tolerance : Int := if s.bitDepth = 16 then 20 else 1000
  let saturatedCount : Int :=
    ((frame.filter (fun x => decide (ceiling ≤ x))).length : Int)
  let s1 :=
    if threshold < saturatedCount then
      { s with maxExposure := s.currentExposure - 1 }
    else
      { s with minExposure := s.currentExposure + 1 }
  let width := s1.maxExposure - s1.minExposure
  let midpoint := Int.fdiv (s1.maxExposure + s1.minExposure) 2
  let converged :=
    decide (|saturatedCount - threshold| < tolerance) ||
    decide (|width| < 10) ||
    decide (|s1.currentExposure - midpoint| ≤ 2 * tisExposureIncrement)
  (converged, s1)

/-- Claim C4: on the hardware backend, `check_exposure(frame)` behaves
exactly as the claim describes it: it counts the samples at or above the
dynamic-range ceiling, narrows the search interval by moving one bound next
to the current exposure, and reports convergence exactly under the claimed
three-way disjunction with the claimed bit-depth-specific thresholds. -/
theorem tis_check_exposure_matches_claim :
    ∀ (s : TisState) (frame : List Nat),
      tisCheckExposure s frame = tisCheckExposureClaim s frame :=
  fun _ _ => rfl

/-! ### Claim C1: `set_exposure` bounds checking -/

/-- Claim C1 (counterexample): on the TIS backend, `set_exposure(50)`
returns `True` and changes `exposure()` even though `50` is below the
backend's reported minimum exposure of `15000`, so the claimed behaviour
does not hold for every backend. -/
theorem set_exposure_tis_counterexample :
    (50 : Int) ≤ tisExposureRange.1 ∧
    (tisSetExposure TisState.init 50).1 = true ∧
    tisExposure (tisSetExposure TisState.init 50).2 ≠ tisExposure TisState.init := by
  decide

/-- Claim C1 (amended): on the mock backend, `set_exposure(v)` returns
`False` and leaves the whole state unchanged whenever `v` is at most the
current minimum bound or at least the current maximum bound (these mutable
bounds initially equal the reported range endpoints 100 and 500000), and
otherwise returns `True` with `exposure() == v`; the TIS backend's
`set_exposure` performs no bounds check: it always returns `True` and
stores the value.  The claim's concrete mock scenario holds as stated. -/
theorem set_exposure_amended :
    (∀ (s : MockState) (v : Int),
      s.exposureMax ≤ v ∨ v ≤ s.exposureMin →
        mockSetExposure s v = (false, s)) ∧
    (∀ (s : MockState) (v : Int), s.exposureMin < v → v < s.exposureMax →
      (mockSetExposure s v).1 = true ∧ (mockSetExposure s v).2.exposure = v) ∧
    (∀ (s : TisState) (v : Int),
      (tisSetExposure s v).1 = true ∧
      (tisSetExposure s v).2.currentExposure = v) ∧
    MockState.init.exposureMin = 100 ∧ MockState.init.exposureMax = 500000 ∧
    mockExposureRange = (100, 500000, 20) ∧
    mockSetExposure MockState.init 50 = (false, MockState.init) ∧
    (mockSetExposure MockState.init 100000).1 = true ∧
    (mockSetExposure MockState.init 100000).2.exposure = 100000 := by
  refine ⟨?_, ?_, ?_, rfl, rfl, rfl, by decide, by decide, by decide⟩
  · intro s v h
    unfold mockSetExposure
    rw [if_pos h]
  · intro s v h1 h2
    have h : ¬(s.exposureMax ≤ v ∨ v ≤ s.exposureMin) := by omega
    unfold mockSetExposure
    rw [if_neg h]
    exact ⟨rfl, rfl⟩
  · intro s v
    exact ⟨rfl, rfl⟩

/-- Claim C1 (witness): the amended theorem instantiated at the initial
states with the claim's concrete values. -/
theorem set_exposure_amended_witness :
    mockSetExposure MockState.init 50 = (false, MockState.init) ∧
    ((mockSetExposure MockState.init 100000).1 = true ∧
      (mockSetExposure MockState.init 100000).2.exposure = 100000) ∧
    ((tisSetExposure TisState.init 123).1 = true ∧
      (tisSetExposure TisState.init 123).2.currentExposure = 123) :=
  ⟨set_exposure_amended.1 MockState.init 50 (by decide),
    set_exposure_amended.2.1 MockState.init 100000 (by decide) (by decide),
    set_exposure_amended.2.2.1 TisState.init 123⟩

/-! ### Claim C5: reset of the search bounds on convergence -/

/-- Claim C5 (counterexample): on the TIS backend, `check_exposure` reports
convergence on a 16-bit frame with exactly 100 saturated samples, yet the
minimum search bound is not reset to the absolute bound
`TIS_MIN_EXPOSURE_MS = 15`; it is left at the narrowed value `501`. -/
theorem tis_convergence_no_reset_counterexample :
    (tisCheckExposure TisState.init (List.replicate 100 65535)).1 = true ∧
    (tisCheckExposure TisState.init (List.replicate 100 65535)).2.minExposure ≠
      tisMinExposureMs := by
  decide

/-- Claim C5 (amended): on the mock backend, whenever `check_exposure`
returns `True` the search bounds are reset to the absolute bounds
`(100, 500000)`; the TIS backend's `check_exposure` instead always leaves
the interval exactly as the current step narrowed it — one bound untouched
and the other moved next to the current exposure — with no reset on
convergence. -/
theorem convergence_reset_amended :
    (∀ s : MockState, (mockCheckExposure s).1 = true →
      (mockCheckExposure s).2.exposureMin = 100 ∧
      (mockCheckExposure s).2.exposureMax = 500000) ∧
    (∀ (s : TisState) (frame : List Nat),
      ((tisCheckExposure s frame).2.maxExposure = s.currentExposure - 1 ∧
        (tisCheckExposure s frame).2.minExposure = s.minExposure) ∨
      ((tisCheckExposure s frame).2.minExposure = s.currentExposure + 1 ∧
        (tisCheckExposure s frame).2.maxExposure = s.maxExposure)) := by
  constructor
  · intro s h
    by_cases hc :
        8000 ≤ (if 10000 < s.exposure then { s with exposureMax := s.exposure - 1 }
          else { s with exposureMin := s.exposure + 1 } : MockState).exposure ∧
        (if 10000 < s.exposure then { s with exposureMax := s.exposure - 1 }
          else { s with exposureMin := s.exposure + 1 } : MockState).exposure ≤ 12000
    · unfold mockCheckExposure
      rw [if_pos hc]
      exact ⟨rfl, rfl⟩
    · unfold mockCheckExposure at h
      rw [if_neg hc] at h
      exact absurd h (by simp)
  · intro s frame
    by_cases hc :
        (if s.bitDepth = 16 then (100 : Int) else 8000) <
          ((frame.filter (fun x => decide (s.dynamicRange ≤ x))).length : Int)
    · left
      simp [tisCheckExposure, tisFindExposureForSaturation, hc]
    · right
      simp [tisCheckExposure, tisFindExposureForSaturation, hc]

/-- Claim C5 (witness): the amended theorem instantiated at a mock state
that converges (exposure 9000) and at the TIS initial state with an
unsaturated frame. -/
theorem convergence_reset_amended_witness :
    ((mockCheckExposure { exposure := 9000 }).1 = true ∧
      ((mockCheckExposure { exposure := 9000 }).2.exposureMin = 100 ∧
        (mockCheckExposure { exposure := 9000 }).2.exposureMax = 500000)) ∧
    (((tisCheckExposure TisState.init []).2.maxExposure =
        TisState.init.currentExposure - 1 ∧
      (tisCheckExposure TisState.init []).2.minExposure =
        TisState.init.minExposure) ∨
      ((tisCheckExposure TisState.init []).2.minExposure =
        TisState.init.currentExposure + 1 ∧
      (tisCheckExposure TisState.init []).2.maxExposure =
        TisState.init.maxExposure)) :=
  ⟨⟨by decide, convergence_reset_amended.1 { exposure := 9000 } (by decide)⟩,
    convergence_reset_amended.2 TisState.init []⟩

/-! ### Claim C3: termination of the exposure estimation -/

lemma estStep_off_fix (t : Nat) (c : Bool) : estStep (false, t) c = (false, t) :=
  rfl

lemma estRun_off_fix (cs : List Bool) (t : Nat) :
    cs.foldl estStep (false, t) = (false, t) := by
  induction cs with
  | nil => rfl
  | cons c cs ih =>
      rw [List.foldl_cons, estStep_off_fix]
      exact ih

lemma estRun_terminates_aux :
    ∀ (cs : List Bool) (t : Nat), t < 50 → 50 ≤ t + cs.length →
      cs.foldl estStep (true, t) = (false, 0) := by
  intro cs
  induction cs with
  | nil =>
      intro t h1 h2
      simp only [List.length_nil] at h2
      omega
  | cons c cs ih =>
      intro t h1 h2
      rw [List.foldl_cons]
      by_cases h50 : 50 ≤ t + 1
      · have hs : estStep (true, t) c = (false, 0) := by
          simp [estStep, h50]
        rw [hs]
        exact estRun_off_fix cs 0
      · cases c
        · have hs : estStep (true, t) false = (true, t + 1) := by
            simp [estStep, h50]
          rw [hs]
          refine ih (t + 1) (by omega) ?_
          simp only [List.length_cons] at h2
          omega
        · have hs : estStep (true, t) true = (false, 0) := by
            simp [estStep, h50]
          rw [hs]
          exact estRun_off_fix cs 0

/-- Claim C3: once estimation is started (`estimating_exposure = true`,
`exposure_tries = 0`), then for every sequence of `check_exposure` results
the pair reaches `estimating_exposure = false` within 50 estimation ticks,
with `exposure_tries` reset to `0`; whenever a step turns estimation off,
the tries counter is `0` afterwards; and `toggle_exposure` starts
estimation with the pair `(true, 0)`. -/
theorem exposure_estimation_terminates :
    (∀ cs : List Bool, 50 ≤ cs.length →
      cs.foldl estStep (true, 0) = (false, 0)) ∧
    (∀ (t : Nat) (c : Bool), (estStep (true, t) c).1 = false →
      (estStep (true, t) c).2 = 0) ∧
    (∀ (sys : Sys) (fps : Int),
      sys.gui.running = true → sys.gui.paused = false →
      sys.gui.estimatingExposure = false →
      (toggleExposure sys fps).gui.estimatingExposure = true ∧
      (toggleExposure sys fps).gui.exposureTries = 0) := by
  refine ⟨?_, ?_, ?_⟩
  · intro cs h
    exact estRun_terminates_aux cs 0 (by omega) (by omega)
  · intro t c h
    by_cases h50 : 50 ≤ t + 1
    · simp [estStep, h50]
    · cases c <;> simp [estStep, h50] at h ⊢
  · intro sys fps hr hp he
    constructor <;> simp [toggleExposure, hr, hp, he]

/-- Claim C3 (witness): a run of 50 never-converging ticks terminates with
tries reset, a converging step resets the counter, and `toggle_exposure`
on a concrete running session starts the estimation at `(true, 0)`. -/
theorem exposure_estimation_terminates_witness :
    (List.replicate 50 false).foldl estStep (true, 0) = (false, 0) ∧
    (estStep (true, 3) true).2 = 0 ∧
    ((toggleExposure
        { gui := { running := true }, cam := {}, saves := [], display := none }
        30).gui.estimatingExposure = true ∧
      (toggleExposure
        { gui := { running := true }, cam := {}, saves := [], display := none }
        30).gui.exposureTries = 0) :=
  ⟨exposure_estimation_terminates.1 (List.replicate 50 false) (by decide),
    exposure_estimation_terminates.2.1 3 true (by decide),
    exposure_estimation_terminates.2.2
      { gui := { running := true }, cam := {}, saves := [], display := none }
      30 rfl rfl rfl⟩

/-! ### Claim C7: ticks are no-ops while stopped or paused -/

/-- Claim C7: when the session is not running or is paused, one tick of
`update_frame` changes nothing at all: no session state, no camera state,
no frame pull, no save call, whether or not the device would have
failed. -/
theorem tick_noop_when_not_running :
    ∀ (sys : Sys) (deviceFails : Bool),
      sys.gui.running = false ∨ sys.gui.paused = true →
      updateFrame sys deviceFails = sys := by
  intro sys deviceFails h
  unfold updateFrame
  rw [if_pos h]

/-- Claim C7 (witness): a tick on the initial (stopped) session is the
identity. -/
theorem tick_noop_witness : updateFrame Sys.init false = Sys.init :=
  tick_noop_when_not_running Sys.init false (Or.inl rfl)

/-! ### Claim C2: a device exception during a tick -/

lemma mockCheckExposure_counter (s : MockState) :
    (mockCheckExposure s).2.counter = s.counter := by
  simp only [mockCheckExposure]
  split <;> split <;> rfl

/-- The concrete session used for claim C2: running, unpaused, with an
exposure estimation in progress and a fresh tries counter. -/
def estimatingSys : Sys :=
  { gui := { running := true, estimatingExposure := true },
    cam := {}, saves := [], display := none }

/-- Claim C2 (counterexample): on a running, unpaused session with an
estimation in progress, a tick whose `get_frame` raises the device's
declared exception still runs the estimation step: `exposure_tries`
changes (from 0 to 1), contradicting "no exposure-estimation step runs on
that tick, no session state changes". -/
theorem missed_tick_counterexample :
    (updateFrame estimatingSys true).gui.exposureTries ≠
      estimatingSys.gui.exposureTries := by
  decide

/-- Claim C2 (amended): if `get_frame` raises the device's declared
exception during a tick of a running, unpaused session, both the raw and
the display frame are absent (the displayed image is left as it was), no
save call is made, the frame counter does not move, no frame is pulled
from the camera, and the exception does not propagate; if no estimation is
in progress the tick changes nothing at all, but if an estimation is in
progress the estimation step still runs on that tick: `check_exposure`
executes on the (absent) frame and the `(estimating_exposure,
exposure_tries)` bookkeeping advances by one step. -/
theorem missed_tick_amended :
    ∀ sys : Sys, sys.gui.running = true → sys.gui.paused = false →
      ((updateFrame sys true).saves = sys.saves ∧
        (updateFrame sys true).display = sys.display ∧
        (updateFrame sys true).gui.frameCounter = sys.gui.frameCounter ∧
        (updateFrame sys true).cam.counter = sys.cam.counter) ∧
      (sys.gui.estimatingExposure = false → updateFrame sys true = sys) ∧
      (sys.gui.estimatingExposure = true →
        (updateFrame sys true).cam =
          (mockCheckExposure (mockAdjustExposure sys.cam)).2 ∧
        ((updateFrame sys true).gui.estimatingExposure,
          (updateFrame sys true).gui.exposureTries) =
          estStep (true, sys.gui.exposureTries)
            (mockCheckExposure (mockAdjustExposure sys.cam)).1) := by
  intro sys hr hp
  have hguard : ¬(sys.gui.running = false ∨ sys.gui.paused = true) := by
    rw [hr, hp]; simp
  cases hE : sys.gui.estimatingExposure
  · have hid : updateFrame sys true = sys := by
      unfold updateFrame
      rw [if_neg hguard]
      simp [hE]
      rw [← hE]
    refine ⟨?_, fun _ => hid, fun h => by simp at h⟩
    rw [hid]
    exact ⟨rfl, rfl, rfl, rfl⟩
  · constructor
    · unfold updateFrame
      rw [if_neg hguard]
      simp [hE, mockCheckExposure_counter, mockAdjustExposure]
    constructor
    · intro h; simp at h
    · intro _
      unfold updateFrame
      rw [if_neg hguard]
      simp [hE]

/-- Claim C2 (witness): the amended theorem instantiated at the concrete
estimating session. -/
theorem missed_tick_amended_witness :
    ((updateFrame estimatingSys true).saves = estimatingSys.saves ∧
      (updateFrame estimatingSys true).display = estimatingSys.display ∧
      (updateFrame estimatingSys true).gui.frameCounter =
        estimatingSys.gui.frameCounter ∧
      (updateFrame estimatingSys true).cam.counter =
        estimatingSys.cam.counter) ∧
    (estimatingSys.gui.estimatingExposure = false →
      updateFrame estimatingSys true = estimatingSys) ∧
    (estimatingSys.gui.estimatingExposure = true →
      (updateFrame estimatingSys true).cam =
        (mockCheckExposure (mockAdjustExposure estimatingSys.cam)).2 ∧
      ((updateFrame estimatingSys true).gui.estimatingExposure,
        (updateFrame estimatingSys true).gui.exposureTries) =
        estStep (true, estimatingSys.gui.exposureTries)
          (mockCheckExposure (mockAdjustExposure estimatingSys.cam)).1) :=
  missed_tick_amended estimatingSys rfl rfl

/-! ### Claim C6: recording ticks and save calls -/

/-- Claim C6: starting a recording on a running, unpaused session resets
the frame counter to 0; every tick that obtains a raw frame while
recording issues exactly one save call, named `frame_` plus the counter
zero-padded to four digits, and then increments the counter by exactly
one; no tick issues a save call while recording is off; and five ticks of
the simulated backend while recording produce exactly the five save calls
`frame_0000` … `frame_0004`, each with a 480×640 raw frame. -/
theorem recording_ticks :
    (∀ sys : Sys,
      sys.gui.running = true → sys.gui.paused = false →
      sys.gui.recording = true →
      (updateFrame sys false).saves =
        sys.saves ++ [⟨"frame_" ++ pad4 sys.gui.frameCounter, mockShape⟩] ∧
      (updateFrame sys false).gui.frameCounter = sys.gui.frameCounter + 1) ∧
    (∀ (sys : Sys) (deviceFails : Bool), sys.gui.recording = false →
      (updateFrame sys deviceFails).saves = sys.saves) ∧
    (∀ (sys : Sys) (ts : String),
      sys.gui.running = true → sys.gui.paused = false →
      sys.gui.recording = false →
      (toggleRecording sys ts).gui.recording = true ∧
      (toggleRecording sys ts).gui.frameCounter = 0) ∧
    (runTicks 5 (toggleRecording
        { gui := { running := true }, cam := {}, saves := [], display := none }
        "s")).saves =
      [⟨"frame_0000", mockShape⟩, ⟨"frame_0001", mockShape⟩,
        ⟨"frame_0002", mockShape⟩, ⟨"frame_0003", mockShape⟩,
        ⟨"frame_0004", mockShape⟩] ∧
    mockShape = (480, 640) := by
  refine ⟨?_, ?_, ?_, by decide, rfl⟩
  · intro sys hr hp hrec
    have hguard : ¬(sys.gui.running = false ∨ sys.gui.paused = true) := by
      rw [hr, hp]; simp
    unfold updateFrame
    rw [if_neg hguard]
    simp [hrec, mockGetFrame]
  · intro sys deviceFails hrec
    by_cases hguard : sys.gui.running = false ∨ sys.gui.paused = true
    · rw [tick_noop_when_not_running sys deviceFails hguard]
    · unfold updateFrame
      rw [if_neg hguard]
      cases deviceFails <;> simp [hrec, mockGetFrame]
  · intro sys ts hr hp hrec
    constructor <;> simp [toggleRecording, hr, hp, hrec]

/-- Claim C6 (witness): the general parts instantiated at a concrete
running, recording session (and at the stopped initial session for the
no-save part). -/
theorem recording_ticks_witness :
    ((updateFrame
        { gui := { running := true, recording := true }, cam := {},
          saves := [], display := none } false).saves =
      [⟨"frame_0000", mockShape⟩] ∧
      (updateFrame
        { gui := { running := true, recording := true }, cam := {},
          saves := [], display := none } false).gui.frameCounter = 1) ∧
    (updateFrame Sys.init false).saves = Sys.init.saves ∧
    ((toggleRecording
        { gui := { running := true }, cam := {}, saves := [], display := none }
        "s").gui.recording = true ∧
      (toggleRecording
        { gui := { running := true }, cam := {}, saves := [], display := none }
        "s").gui.frameCounter = 0) :=
  ⟨recording_ticks.1
      { gui := { running := true, recording := true }, cam := {},
        saves := [], display := none } rfl rfl rfl,
    recording_ticks.2.1 Sys.init false rfl,
    recording_ticks.2.2.1
      { gui := { running := true }, cam := {}, saves := [], display := none }
      "s" rfl rfl rfl⟩

/-! ### Claim C8: the device registry -/

/-- Claim C8: `camera(camera_id)` returns the mock backend for `"mock"`
(importing no hardware SDK module), constructs the Ximea and TIS backends
for their identifiers with each hardware module imported only inside its
own branch, and raises an error for every other identifier — never a
silent fallback. -/
theorem camera_registry :
    camera "mock" = .ok (CameraKind.mock, []) ∧
    camera "ximea" =
      .ok (CameraKind.ximea,
        ["camera_visualizer.camera_interface.ximea_interface"]) ∧
    camera "tis" =
      .ok (CameraKind.tis,
        ["camera_visualizer.camera_interface.tis_interface"]) ∧
    (∀ s : String, s ≠ "mock" → s ≠ "ximea" → s ≠ "tis" →
      camera s = .error ("Camera f" ++ s ++ " not known.")) := by
  refine ⟨rfl, rfl, rfl, ?_⟩
  intro s h1 h2 h3
  unfold camera
  rw [if_neg h1, if_neg h2, if_neg h3]

/-- Claim C8 (witness): the registry rejects the unknown identifier
`"foo"` with the `ValueError` message. -/
theorem camera_registry_witness :
    camera "foo" = .error ("Camera f" ++ "foo" ++ " not known.") :=
  camera_registry.2.2.2 "foo" (by decide) (by decide) (by decide)

/-! ### Claim C9: the toggles are involutions on their own field -/

/-- Claim C9: on the mock backend `toggle_bit_depth` and `toggle_view`
keep their field inside {8, 16} and {0, 1} respectively, are involutions
on those ranges (which contain the initial values), and change no other
field — not the exposure, the exposure bounds, the frame counter, nor the
save paths; on the TIS backend `toggle_bit_depth` is a no-op. -/
theorem toggle_involutions :
    (∀ s : MockState,
      ((mockToggleBitDepth s).bitDepth = 8 ∨
        (mockToggleBitDepth s).bitDepth = 16) ∧
      ((mockToggleView s).toggleViewFlag = 0 ∨
        (mockToggleView s).toggleViewFlag = 1) ∧
      (mockToggleBitDepth s).exposure = s.exposure ∧
      (mockToggleBitDepth s).exposureMin = s.exposureMin ∧
      (mockToggleBitDepth s).exposureMax = s.exposureMax ∧
      (mockToggleBitDepth s).counter = s.counter ∧
      (mockToggleBitDepth s).toggleViewFlag = s.toggleViewFlag ∧
      (mockToggleBitDepth s).subfolder = s.subfolder ∧
      (mockToggleBitDepth s).saveFolder = s.saveFolder ∧
      (mockToggleView s).exposure = s.exposure ∧
      (mockToggleView s).exposureMin = s.exposureMin ∧
      (mockToggleView s).exposureMax = s.exposureMax ∧
      (mockToggleView s).counter = s.counter ∧
      (mockToggleView s).bitDepth = s.bitDepth ∧
      (mockToggleView s).subfolder = s.subfolder ∧
      (mockToggleView s).saveFolder = s.saveFolder) ∧
    (∀ s : MockState, s.bitDepth = 8 ∨ s.bitDepth = 16 →
      mockToggleBitDepth (mockToggleBitDepth s) = s) ∧
    (∀ s : MockState, s.toggleViewFlag = 0 ∨ s.toggleViewFlag = 1 →
      mockToggleView (mockToggleView s) = s) ∧
    MockState.init.bitDepth = 8 ∧ MockState.init.toggleViewFlag = 0 ∧
    (∀ s : TisState, tisToggleBitDepth s = s) := by
  refine ⟨fun s => ?_, fun s h => ?_, fun s h => ?_, rfl, rfl, fun s => rfl⟩
  · refine ⟨?_, ?_, rfl, rfl, rfl, rfl, rfl, rfl, rfl,
      rfl, rfl, rfl, rfl, rfl, rfl, rfl⟩
    · by_cases hb : s.bitDepth = 16 <;> simp [mockToggleBitDepth, hb]
    · by_cases hv : s.toggleViewFlag = 1 <;> simp [mockToggleView, hv]
  · obtain ⟨e1, e2, e3, bd, ct, tv, sf, fo⟩ := s
    simp only at h
    rcases h with h | h <;> subst h <;> rfl
  · obtain ⟨e1, e2, e3, bd, ct, tv, sf, fo⟩ := s
    simp only at h
    rcases h with h | h <;> subst h <;> rfl

/-- Claim C9 (witness): the toggles applied twice to the initial mock
state restore it. -/
theorem toggle_involutions_witness :
    mockToggleBitDepth (mockToggleBitDepth MockState.init) = MockState.init ∧
    mockToggleView (mockToggleView MockState.init) = MockState.init :=
  ⟨toggle_involutions.2.1 MockState.init (Or.inl rfl),
    toggle_involutions.2.2.1 MockState.init (Or.inl rfl)⟩

/-! ### Claim C10: save folders with and without a subfolder -/

/-- Modelled from the spec: the external save capability
(`camera_visualizer.serializer.save_frame`, whose source is not in the
repository snapshot).  Per the spec the core guarantees the save folder
exists before calling it, so the call is modelled as succeeding exactly
when an actual save folder is provided rather than `None`. -/
def saveCapability (folder : Option (List String)) (stem : String)
    (shape : Nat × Nat) : Option SaveCall :=
  folder.map (fun _ => ⟨stem, shape⟩)

/-- `Camera.save_frame` as inherited by `TisCamera`: it hands
`self.save_folder()` (which may be `None`) to the external serializer. -/
def tisSaveFrame (s : TisState) (stem : String) (shape : Nat × Nat) :
    Option SaveCall :=
  saveCapability (tisSaveFolder s) stem shape

/-- `Camera.save_frame` as inherited by `MockCamera`: the mock save folder
is always an actual path. -/
def mockSaveFrame (s : MockState) (stem : String) (shape : Nat × Nat) :
    Option SaveCall :=
  saveCapability (some (mockSaveFolder s)) stem shape

/-- Claim C10: `TisCamera.save_folder()` is `None` whenever no save
subfolder has ever been set (the underlying `save_path` property is `None`
without a subfolder), so the inherited `save_frame` only succeeds on a
TIS camera once a subfolder is set; once one is set the folder is the save
root extended by the subfolder.  `MockCamera.save_folder()` instead falls
back to its root data folder, so its inherited `save_frame` always has an
actual folder. -/
theorem save_folder_subfolder :
    (∀ s : TisState, s.saveSubfolder = none → tisSaveFolder s = none) ∧
    (∀ (s : TisState) (stem : String) (shape : Nat × Nat),
      s.saveSubfolder = none → tisSaveFrame s stem shape = none) ∧
    (∀ (s : TisState) (sub : String), s.saveSubfolder = some sub →
      tisSaveFolder s = some (s.saveFolder ++ [sub])) ∧
    (∀ s : MockState, s.subfolder = none → mockSaveFolder s = s.saveFolder) ∧
    (∀ (s : MockState) (stem : String) (shape : Nat × Nat),
      (mockSaveFrame s stem shape).isSome = true) := by
  refine ⟨?_, ?_, ?_, ?_, ?_⟩
  · intro s h
    simp [tisSaveFolder, TisState.savePath, h]
  · intro s stem shape h
    simp [tisSaveFrame, saveCapability, tisSaveFolder, TisState.savePath, h]
  · intro s sub h
    simp [tisSaveFolder, TisState.savePath, h]
  · intro s h
    simp [mockSaveFolder, h]
  · intro s stem shape
    simp [mockSaveFrame, saveCapability]

/-- Claim C10 (witness): on the fresh TIS state the save folder is `None`
and the inherited save fails, after setting a subfolder it is the root
extended by it, and on the fresh mock state the save folder is the root
and the inherited save succeeds. -/
theorem save_folder_subfolder_witness :
    tisSaveFolder TisState.init = none ∧
    tisSaveFrame TisState.init "frame_0000" (480, 640) = none ∧
    tisSaveFolder (tisSetSaveSubfolder TisState.init "run1") =
      some (TisState.init.saveFolder ++ ["run1"]) ∧
    mockSaveFolder MockState.init = MockState.init.saveFolder ∧
    (mockSaveFrame MockState.init "frame_0000" (480, 640)).isSome = true :=
  ⟨save_folder_subfolder.1 TisState.init rfl,
    save_folder_subfolder.2.1 TisState.init "frame_0000" (480, 640) rfl,
    save_folder_subfolder.2.2.1 (tisSetSaveSubfolder TisState.init "run1")
      "run1" rfl,
    save_folder_subfolder.2.2.2.1 MockState.init rfl,
    save_folder_subfolder.2.2.2.2 MockState.init "frame_0000" (480, 640)⟩

end CameraVisualizer
